import Mathlib

/-!
Shallow embedding of the Skill Evaluation & Lifecycle Engine
(`src/agent/evaluation/metrics.ts`, `src/agent/skills/registry.ts`,
`src/agent/skills/base.ts`) together with proofs checking the
natural-language specification against the code.

Modelling conventions:
* JavaScript `number` values are modelled as exact rationals (`ℚ`); the one
  place the code calls `Math.sqrt` (the stability score) is modelled in `ℝ`.
* JS `Map`s are modelled as insertion-ordered association lists and JS `Set`s
  as insertion-ordered duplicate-free lists, matching JS iteration order.
* Optional / possibly-`undefined` fields become `Option`; JS truthiness tests
  on strings (`if (options.intent && ...)`) are modelled explicitly (the empty
  string is falsy).
* Thrown exceptions become `Except String`.
-/

/-- Score weight profile (`ScoreWeights` in `base.ts`). -/
structure ScoreWeights where
  success : ℚ
  cost : ℚ
  latency : ℚ
  rollback : ℚ
  stability : ℚ
  deriving DecidableEq

/-- Promotion thresholds (`Thresholds.promote` in `base.ts`). -/
structure PromoteThresholds where
  min_score : ℚ
  min_executions : ℚ
  min_success_rate : ℚ
  deriving DecidableEq

/-- Retirement thresholds (`Thresholds.retire` in `base.ts`). -/
structure RetireThresholds where
  max_score : ℚ
  max_executions : ℚ
  max_rollback_rate : ℚ
  deriving DecidableEq

/-- The two threshold sets (`Thresholds` in `base.ts`). -/
structure Thresholds where
  promote : PromoteThresholds
  retire : RetireThresholds
  deriving DecidableEq

/-- The three named weight profiles of `MetricsConfig.weights`. -/
structure WeightProfiles where
  balanced : ScoreWeights
  aggressive : ScoreWeights
  conservative : ScoreWeights
  deriving DecidableEq

/-- Metrics configuration (`MetricsConfig` in `base.ts`). -/
structure MetricsConfig where
  thresholds : Thresholds
  weights : WeightProfiles
  deriving DecidableEq

/-- Source `getDefaultConfig` from `metrics.ts` (lines 325-363). -/
def getDefaultConfig : MetricsConfig :=
  { thresholds :=
      { promote := { min_score := 0.8, min_executions := 10, min_success_rate := 0.85 }
        retire := { max_score := 0.5, max_executions := 20, max_rollback_rate := 0.3 } }
    weights :=
      { balanced := { success := 0.4, cost := 0.2, latency := 0.15, rollback := 0.15, stability := 0.1 }
        aggressive := { success := 0.6, cost := 0.1, latency := 0.1, rollback := 0.1, stability := 0.1 }
        conservative := { success := 0.2, cost := 0.3, latency := 0.2, rollback := 0.2, stability := 0.1 } } }

/-- A metrics snapshot (`SkillMetrics` in `base.ts`), generic in the number
type: the scorer consumes snapshots with rational entries, while the
collector produces a snapshot whose stability component lives in `ℝ`
(it is the result of a square root). -/
structure SkillMetrics (α : Type) where
  success_rate : α
  avg_cost : α
  avg_latency : α
  rollback_rate : α
  stability_score : α
  execution_count : ℕ
  last_execution_at : String

instance : DecidableEq (SkillMetrics ℚ) := by
  intro a b
  cases a
  cases b
  rw [SkillMetrics.mk.injEq]
  exact inferInstance

namespace MetricsScorer

/-- Source `MetricsScorer.calculateScore` (`metrics.ts` lines 222-236).  The JS
defaults `maxCost = 10`, `maxLatency = 10000` are supplied explicitly at the
call sites that omit them. -/
def calculateScore (metrics : SkillMetrics ℚ) (weights : ScoreWeights)
    (maxCost : ℚ) (maxLatency : ℚ) : ℚ :=
  let score :=
    metrics.success_rate * weights.success +
    max 0 (1 - metrics.avg_cost / maxCost) * weights.cost +
    max 0 (1 - metrics.avg_latency / maxLatency) * weights.latency +
    (1 - metrics.rollback_rate) * weights.rollback +
    metrics.stability_score * weights.stability
  max 0 (min 1 score)

/-- Source `MetricsScorer.canPromote` (`metrics.ts` lines 245-254). -/
def canPromote (config : MetricsConfig) (metrics : SkillMetrics ℚ)
    (weights : ScoreWeights) : Bool :=
  let score := calculateScore metrics weights 10 10000
  let thresholds := config.thresholds.promote
  decide (score ≥ thresholds.min_score) &&
  decide ((metrics.execution_count : ℚ) ≥ thresholds.min_executions) &&
  decide (metrics.success_rate ≥ thresholds.min_success_rate)

/-- Source `MetricsScorer.shouldRetire` (`metrics.ts` lines 263-272). -/
def shouldRetire (config : MetricsConfig) (metrics : SkillMetrics ℚ)
    (weights : ScoreWeights) : Bool :=
  let score := calculateScore metrics weights 10 10000
  let thresholds := config.thresholds.retire
  decide (score ≤ thresholds.max_score) &&
  decide ((metrics.execution_count : ℚ) ≥ thresholds.max_executions) &&
  decide (metrics.rollback_rate ≥ thresholds.max_rollback_rate)

end MetricsScorer

/-- Clamp a rational to an interval, as in the spec's `clamp(x, lo, hi)`. -/
def clampQ (x lo hi : ℚ) : ℚ := max lo (min hi x)

/-- The composite-score formula exactly as §4.3 of the spec words it
(for comparison with the source-derived `MetricsScorer.calculateScore`). -/
def specScore (m : SkillMetrics ℚ) (w : ScoreWeights)
    (maxCost maxLatency : ℚ) : ℚ :=
  clampQ
    (m.success_rate * w.success +
      max 0 (1 - m.avg_cost / maxCost) * w.cost +
      max 0 (1 - m.avg_latency / maxLatency) * w.latency +
      (1 - m.rollback_rate) * w.rollback +
      m.stability_score * w.stability)
    0 1

/-- One execution outcome (`ExecutionRecord` in `metrics.ts`). -/
structure ExecutionRecord where
  success : Bool
  cost : ℚ
  latency : ℚ
  rolled_back : Bool
  timestamp : String
  deriving DecidableEq

/-- The `MetricsCollector` state: the `records` map from skill name to its
ordered history. -/
def CollectorState : Type := List (String × List ExecutionRecord)

namespace MetricsCollector

/-- Source `MetricsCollector.getRecords` (`metrics.ts` lines 65-67):
`this.records.get(skillName) || []`. -/
def getRecords (c : CollectorState) (skillName : String) : List ExecutionRecord :=
  (List.lookup skillName c).getD []

/-- The windowed success-rate sequence built by the loop in
`calculateStabilityScore` (`metrics.ts` lines 146-153): `i` runs from
`windowSize - 1` to `records.length - 1` and each step takes
`records.slice(i - windowSize + 1, i + 1)`.  The JS start index
`i - windowSize + 1` is written `i + 1 - windowSize` here so that truncated
`Nat` subtraction agrees with the JS integer value (`i ≥ windowSize - 1`
throughout the loop). -/
def windowRates (records : List ExecutionRecord) : List ℚ :=
  let windowSize := min 10 records.length
  (List.range' (windowSize - 1) (records.length - (windowSize - 1))).map
    (fun i =>
      let window := (records.drop (i + 1 - windowSize)).take windowSize
      ((window.filter (fun r => r.success)).length : ℚ) / (windowSize : ℚ))

/-- Source `MetricsCollector.calculateStabilityScore` (`metrics.ts` lines 135-166).
`Math.sqrt` forces the result into `ℝ`; all intermediate arithmetic is
rational. -/
noncomputable def calculateStabilityScore (records : List ExecutionRecord) : ℝ :=
  if records.length = 0 then 0
  else if records.length = 1 then 1
  else
    let successRates := windowRates records
    let mean : ℚ := successRates.sum / (successRates.length : ℚ)
    let variance : ℚ :=
      ((successRates.map (fun r => (r - mean) ^ 2)).sum) / (successRates.length : ℚ)
    let stdDev : ℝ := Real.sqrt (variance : ℝ)
    max 0 (min 1 (1 - stdDev))

/-- Source `MetricsCollector.calculateMetrics` (`metrics.ts` lines 75-125).  `now`
models the `new Date().toISOString()` value used when there are no records. -/
noncomputable def calculateMetrics (c : CollectorState) (skillName : String)
    (now : String) : SkillMetrics ℝ :=
  let records := getRecords c skillName
  if records.length = 0 then
    { success_rate := 0, avg_cost := 0, avg_latency := 0, rollback_rate := 0
      stability_score := 0, execution_count := 0, last_execution_at := now }
  else
    let executionCount := records.length
    let successCount := (records.filter (fun r => r.success)).length
    let successRate : ℚ := (successCount : ℚ) / (executionCount : ℚ)
    let totalCost : ℚ := (records.map (fun r => r.cost)).sum
    let avgCost : ℚ := totalCost / (executionCount : ℚ)
    let totalLatency : ℚ := (records.map (fun r => r.latency)).sum
    let avgLatency : ℚ := totalLatency / (executionCount : ℚ)
    let rollbackCount := (records.filter (fun r => r.rolled_back)).length
    let rollbackRate : ℚ := (rollbackCount : ℚ) / (executionCount : ℚ)
    let stabilityScore := calculateStabilityScore records
    let lastExecutionAt := ((records.getLast?).getD
      { success := false, cost := 0, latency := 0, rolled_back := false,
        timestamp := "" }).timestamp
    { success_rate := (successRate : ℝ), avg_cost := (avgCost : ℝ)
      avg_latency := (avgLatency : ℝ), rollback_rate := (rollbackRate : ℝ)
      stability_score := stabilityScore, execution_count := executionCount
      last_execution_at := lastExecutionAt }

end MetricsCollector

/-- Clamp a real to an interval, the spec's `clamp(x, lo, hi)`. -/
def clampR (x lo hi : ℝ) : ℝ := max lo (min hi x)

/-- Population variance of a list of rationals (sum of squared deviations
from the mean, divided by the length). -/
def popVariance (l : List ℚ) : ℚ :=
  ((l.map (fun x => (x - l.sum / (l.length : ℚ)) ^ 2)).sum) / (l.length : ℚ)

/-- The windowed success rates as §4.2 of the spec words them: slide a
length-`w` window (`w = min 10 n`) across the history with step 1, taking the
fraction of successes in each window. -/
def specWindowRates (H : List ExecutionRecord) : List ℚ :=
  let w := min 10 H.length
  (List.range (H.length - w + 1)).map
    (fun start =>
      ((((H.drop start).take w).filter (fun r => r.success)).length : ℚ) / (w : ℚ))

/-- The stability score exactly as §4.2 of the spec words it: 0 for an empty
history, 1 for a single record, otherwise `clamp(1 − σ, 0, 1)` where σ is the
population standard deviation of the windowed success rates. -/
noncomputable def specStabilityScore (H : List ExecutionRecord) : ℝ :=
  if H.length = 0 then 0
  else if H.length = 1 then 1
  else clampR (1 - Real.sqrt ((popVariance (specWindowRates H) : ℚ) : ℝ)) 0 1

/-- Lifecycle status of a registry entry. -/
inductive Status where
  | experimental
  | production
  | retired
  deriving DecidableEq, BEq

/-- Skill metadata (`SkillMetadata` in `base.ts`).  `promoted_at` and
`retired_at` are carried for completeness. -/
structure SkillMetadata where
  name : String
  version : String
  intent : String
  author : String
  created_at : String
  description : Option String := none
  tags : Option (List String) := none
  dependencies : Option (List String) := none
  cost_estimate : Option ℚ := none
  success_threshold : Option ℚ := none
  status : Option Status := none
  promoted_at : Option String := none
  retired_at : Option String := none
  deriving DecidableEq

/-- A skill implementation (`Skill` in `base.ts`); only its metadata is
relevant to the registry, the `execute`/`validate` behaviour being outside
the engine per §1 of the spec. -/
structure Skill where
  metadata : SkillMetadata
  deriving DecidableEq

/-- A registry entry (`SkillEntry` in `registry.ts`). -/
structure SkillEntry where
  skill : Skill
  metadata : SkillMetadata
  path : String
  status : Status
  deriving DecidableEq

/-- Query options (`RegistryQueryOptions` in `registry.ts`). -/
structure RegistryQueryOptions where
  intent : Option String := none
  status : Option Status := none
  author : Option String := none
  tag : Option String := none
  name : Option String := none
  version : Option String := none
  deriving DecidableEq

/-- JS `Map.set` on an insertion-ordered association list: replace in place if
the key is present (JS `Map.set` keeps the original position), else append. -/
def mapSet {α β : Type} [BEq α] : List (α × β) → α → β → List (α × β)
  | [], k, v => [(k, v)]
  | (k', v') :: rest, k, v =>
      if k' == k then (k, v) :: rest else (k', v') :: mapSet rest k v

/-- JS `Set.add` on an insertion-ordered duplicate-free list. -/
def setAdd (s : List String) (n : String) : List String :=
  if s.contains n then s else s ++ [n]

/-- The `if (!index.has(k)) index.set(k, new Set()); index.get(k).add(name)`
pattern used by `register` for both indices. -/
def indexAdd {α : Type} [BEq α] (idx : List (α × List String)) (k : α)
    (n : String) : List (α × List String) :=
  mapSet idx k (setAdd ((List.lookup k idx).getD []) n)

/-- The `const s = index.get(k); if (s) s.delete(name)` pattern used by
`unregister` for both indices. -/
def indexDelete {α : Type} [BEq α] (idx : List (α × List String)) (k : α)
    (n : String) : List (α × List String) :=
  match List.lookup k idx with
  | none => idx
  | some s => mapSet idx k (s.erase n)

/-- The registry state (`SkillRegistry` in `registry.ts`): the main catalog
plus the intent index and the status index. -/
structure SkillRegistry where
  skills : List (String × SkillEntry)
  intentIndex : List (String × List String)
  statusIndex : List (Status × List String)
  deriving DecidableEq

namespace SkillRegistry

/-- The freshly constructed registry (all three maps empty). -/
def empty : SkillRegistry := { skills := [], intentIndex := [], statusIndex := [] }

/-- Source `SkillRegistry.has` (`registry.ts` lines 233-235). -/
def has (reg : SkillRegistry) (name : String) : Bool :=
  (List.lookup name reg.skills).isSome

/-- Source `SkillRegistry.register` (`registry.ts` lines 93-131).  `validMeta`
abstracts the call to `validateMetaData` (whose JSON-schema file,
`meta-schema.json`, is not part of the sources); every theorem below holds
for an arbitrary validation predicate.  The optional `path` argument is the
JS `path || ''` value. -/
def register (validMeta : SkillMetadata → Bool) (reg : SkillRegistry)
    (skill : Skill) (status : Status) (path : String) :
    Except String SkillRegistry :=
  if !(validMeta skill.metadata) then
    Except.error "Invalid skill metadata"
  else
    let name := skill.metadata.name
    let intent := skill.metadata.intent
    if (List.lookup name reg.skills).isSome then
      Except.error ("Skill " ++ name ++ " is already registered")
    else
      let entry : SkillEntry :=
        { skill := skill, metadata := skill.metadata, path := path, status := status }
      Except.ok
        { skills := mapSet reg.skills name entry
          intentIndex := indexAdd reg.intentIndex intent name
          statusIndex := indexAdd reg.statusIndex status name }

/-- Source `SkillRegistry.unregister` (`registry.ts` lines 243-263).  Note the
source destructures `const { intent, status } = entry.metadata;` — the
`status` used for the status-index scrub is the one from the *metadata*
(`status || 'experimental'`), not the entry's registered status. -/
def unregister (reg : SkillRegistry) (name : String) : SkillRegistry × Bool :=
  match List.lookup name reg.skills with
  | none => (reg, false)
  | some entry =>
      let intent := entry.metadata.intent
      let statusKey := (entry.metadata.status).getD Status.experimental
      let intentIndex' := indexDelete reg.intentIndex intent name
      let statusIndex' := indexDelete reg.statusIndex statusKey name
      ({ skills := reg.skills.filter (fun p => !(p.1 == name))
         intentIndex := intentIndex'
         statusIndex := statusIndex' }, true)

/-- The `options.intent && metadata.intent !== options.intent` guard
(`registry.ts` lines 474-476); a JS string option is truthy iff present and
non-empty. -/
def failIntent (e : SkillEntry) (o : RegistryQueryOptions) : Bool :=
  match o.intent with
  | none => false
  | some s => !(s == "") && !(e.metadata.intent == s)

/-- The `options.status && status !== options.status` guard
(`registry.ts` lines 479-481); a present status enum value is always truthy. -/
def failStatus (e : SkillEntry) (o : RegistryQueryOptions) : Bool :=
  match o.status with
  | none => false
  | some s => !(e.status == s)

/-- The `options.author && metadata.author !== options.author` guard
(`registry.ts` lines 484-486). -/
def failAuthor (e : SkillEntry) (o : RegistryQueryOptions) : Bool :=
  match o.author with
  | none => false
  | some s => !(s == "") && !(e.metadata.author == s)

/-- The `options.tag && metadata.tags && !metadata.tags.includes(options.tag)`
guard (`registry.ts` lines 489-491): when `metadata.tags` is `undefined` the
guard is skipped and the entry passes. -/
def failTag (e : SkillEntry) (o : RegistryQueryOptions) : Bool :=
  match o.tag with
  | none => false
  | some t =>
      !(t == "") &&
      (match e.metadata.tags with
       | none => false
       | some tags => !(tags.contains t))

/-- Substring containment, modelling JS `String.prototype.includes`. -/
def strIncludes (s pat : String) : Bool :=
  (List.range (s.data.length + 1)).any
    (fun i => ((s.data.drop i).take pat.data.length) == pat.data)

/-- The `options.name && !metadata.name.includes(options.name)` guard
(`registry.ts` lines 494-496). -/
def failName (e : SkillEntry) (o : RegistryQueryOptions) : Bool :=
  match o.name with
  | none => false
  | some s => !(s == "") && !(strIncludes e.metadata.name s)

/-- The `options.version && metadata.version !== options.version` guard
(`registry.ts` lines 499-501). -/
def failVersion (e : SkillEntry) (o : RegistryQueryOptions) : Bool :=
  match o.version with
  | none => false
  | some s => !(s == "") && !(e.metadata.version == s)

/-- Source `SkillRegistry.matchesQuery` (`registry.ts` lines 470-504): the sequence
of early `return false` guards, in source order. -/
def matchesQuery (e : SkillEntry) (o : RegistryQueryOptions) : Bool :=
  if failIntent e o then false
  else if failStatus e o then false
  else if failAuthor e o then false
  else if failTag e o then false
  else if failName e o then false
  else if failVersion e o then false
  else true

/-- Source `SkillRegistry.list` (`registry.ts` lines 159-173).  `options = none`
models calling `list()` with the argument omitted. -/
def list (reg : SkillRegistry) (options : Option RegistryQueryOptions) :
    List Skill :=
  match options with
  | none => reg.skills.map (fun p => p.2.skill)
  | some opts =>
      ((reg.skills.map (fun p => p.2)).filter
        (fun e => matchesQuery e opts)).map (fun e => e.skill)

/-- The aggregate counts returned by `SkillRegistry.getStats`
(`registry.ts` lines 352-374). -/
structure Stats where
  total : ℕ
  byStatus : Status → ℕ
  byIntent : String → ℕ

/-- Source `SkillRegistry.getStats`: `total` is the catalog size; the per-status and
per-intent counts are recomputed from the catalog (not from the indices). -/
def getStats (reg : SkillRegistry) : Stats :=
  { total := reg.skills.length
    byStatus := fun st =>
      ((reg.skills.map (fun p => p.2)).filter (fun e => e.status == st)).length
    byIntent := fun i =>
      ((reg.skills.map (fun p => p.2)).filter
        (fun e => e.metadata.intent == i)).length }

end SkillRegistry

/-- The recommendation field of a comparison. -/
inductive Recommendation where
  | A
  | B
  | TIE
  deriving DecidableEq

/-- The `aVsB` delta block of a `SkillComparison` (`registry.ts` lines 58-72). -/
structure ComparisonDeltas where
  cost : ℚ
  latency : ℚ
  success_rate : ℚ
  deriving DecidableEq

/-- Source `SkillComparison` (`registry.ts` lines 58-72). -/
structure SkillComparison where
  aVsB : ComparisonDeltas
  overallScore : ℚ
  recommendation : Recommendation
  deriving DecidableEq

/-- JS `x || d` on an optional number: `undefined` and `0` are both falsy
and give the default. -/
def jsOr (o : Option ℚ) (d : ℚ) : ℚ :=
  match o with
  | none => d
  | some x => if x = 0 then d else x

namespace SkillRegistry

/-- Value `successRateA` as resolved by `compare` (`registry.ts` lines 289-310):
the live metric when supplied, else `success_threshold || 0.8`. -/
def resolvedSuccessRate (e : SkillEntry) (m : Option (SkillMetrics ℚ)) : ℚ :=
  match m with
  | some mm => mm.success_rate
  | none => jsOr e.metadata.success_threshold 0.8

/-- Value `latencyA` as resolved by `compare` (`registry.ts` lines 295-310):
the live metric when supplied, else 0. -/
def resolvedLatency (m : Option (SkillMetrics ℚ)) : ℚ :=
  match m with
  | some mm => mm.avg_latency
  | none => 0

/-- Value `avgCostA` as resolved by `compare` (`registry.ts` lines 286-310):
the live metric when supplied, else `cost_estimate || 0`. -/
def resolvedCost (e : SkillEntry) (m : Option (SkillMetrics ℚ)) : ℚ :=
  match m with
  | some mm => mm.avg_cost
  | none => jsOr e.metadata.cost_estimate 0

/-- The delta / normalization / recommendation computation of
`SkillRegistry.compare` (`registry.ts` lines 312-344), as a function of the
six resolved values. -/
def compareCore (avgCostA avgCostB latencyA latencyB successRateA successRateB : ℚ) :
    SkillComparison :=
  let costDiff := avgCostB - avgCostA
  let latencyDiff := latencyB - latencyA
  let successRateDiff := successRateA - successRateB
  let normalizedCost := costDiff / (avgCostA + avgCostB + 0.001) * 2
  let normalizedLatency := latencyDiff / (latencyA + latencyB + 1) * 2
  let normalizedSuccessRate := successRateDiff * 2
  let overallScore :=
    normalizedSuccessRate * 0.4 + normalizedCost * 0.3 + normalizedLatency * 0.3
  let recommendation :=
    if overallScore > 0.1 then Recommendation.A
    else if overallScore < -0.1 then Recommendation.B
    else Recommendation.TIE
  { aVsB := { cost := costDiff, latency := latencyDiff, success_rate := successRateDiff }
    overallScore := overallScore
    recommendation := recommendation }

/-- The body of `SkillRegistry.compare` after the two entries have been
resolved (`registry.ts` lines 286-344). -/
def compareEntries (entryA entryB : SkillEntry)
    (metricsA metricsB : Option (SkillMetrics ℚ)) : SkillComparison :=
  compareCore
    (resolvedCost entryA metricsA) (resolvedCost entryB metricsB)
    (resolvedLatency metricsA) (resolvedLatency metricsB)
    (resolvedSuccessRate entryA metricsA) (resolvedSuccessRate entryB metricsB)

/-- Source `SkillRegistry.compare` (`registry.ts` lines 274-345): raises when either
name is absent, otherwise compares the two resolved entries. -/
def compare (reg : SkillRegistry) (nameA nameB : String)
    (metricsA metricsB : Option (SkillMetrics ℚ)) :
    Except String SkillComparison :=
  match List.lookup nameA reg.skills with
  | none => Except.error ("Skill " ++ nameA ++ " not found")
  | some entryA =>
      match List.lookup nameB reg.skills with
      | none => Except.error ("Skill " ++ nameB ++ " not found")
      | some entryB => Except.ok (compareEntries entryA entryB metricsA metricsB)

end SkillRegistry

/-- C4: for every metrics snapshot, weight profile, and normalization
ceilings `maxCost`/`maxLatency`, `calculateScore` returns exactly the
weighted sum `success_rate·w.success + max(0, 1 − avg_cost/maxCost)·w.cost +
max(0, 1 − avg_latency/maxLatency)·w.latency + (1 − rollback_rate)·w.rollback
+ stability_score·w.stability` clamped to `[0,1]`. -/
theorem calculateScore_eq_specScore (m : SkillMetrics ℚ) (w : ScoreWeights)
    (maxCost maxLatency : ℚ) :
    MetricsScorer.calculateScore m w maxCost maxLatency =
      specScore m w maxCost maxLatency := rfl

/-- C2: `canPromote` returns true iff the composite score (with the default
`maxCost = 10`, `maxLatency = 10000`) clears `promote.min_score`, the
execution count clears `promote.min_executions`, and the success rate clears
`promote.min_success_rate`; in particular it returns false whenever the
execution count is below `promote.min_executions`. -/
theorem canPromote_spec (config : MetricsConfig) (m : SkillMetrics ℚ)
    (w : ScoreWeights) :
    (MetricsScorer.canPromote config m w = true ↔
      (MetricsScorer.calculateScore m w 10 10000 ≥ config.thresholds.promote.min_score ∧
        (m.execution_count : ℚ) ≥ config.thresholds.promote.min_executions ∧
        m.success_rate ≥ config.thresholds.promote.min_success_rate)) ∧
    ((m.execution_count : ℚ) < config.thresholds.promote.min_executions →
      MetricsScorer.canPromote config m w = false) := by
  constructor
  · simp [MetricsScorer.canPromote, and_assoc]
  · intro h
    simp only [MetricsScorer.canPromote, Bool.and_eq_false_iff]
    have : ¬ ((m.execution_count : ℚ) ≥ config.thresholds.promote.min_executions) :=
      not_le.mpr h
    simp [this]

/-- A metrics snapshot clearing score and success-rate promotion thresholds
with only 5 executions (below the default `min_executions = 10`). -/
def metricsFewExecutions : SkillMetrics ℚ :=
  { success_rate := 1, avg_cost := 0, avg_latency := 0, rollback_rate := 0
    stability_score := 1, execution_count := 5, last_execution_at := "t" }

/-- Witness for C2 at a concrete input: a snapshot with 5 executions is not
promoted under the default configuration. -/
theorem canPromote_spec_witness :
    MetricsScorer.canPromote getDefaultConfig metricsFewExecutions
      getDefaultConfig.weights.balanced = false :=
  (canPromote_spec getDefaultConfig metricsFewExecutions
    getDefaultConfig.weights.balanced).2 (by decide)

/-- A snapshot of the C3 scenario as the spec words it: 20 executions,
3 rollbacks (rollback rate 3/20 = 0.15), and a composite balanced-weight
score below the default `retire.max_score`. -/
def metricsThreeRollbacks : SkillMetrics ℚ :=
  { success_rate := 0, avg_cost := 10, avg_latency := 10000, rollback_rate := 3/20
    stability_score := 0, execution_count := 20, last_execution_at := "t" }

/-- Counterexample to C3 as stated: a snapshot with 20 executions, rollback
rate 0.15 and composite score below `retire.max_score = 0.5` is NOT retired,
because `shouldRetire` also requires `rollback_rate ≥ max_rollback_rate =
0.3` and `0.15 < 0.3`. -/
theorem shouldRetire_scenario_counterexample :
    metricsThreeRollbacks.execution_count = 20 ∧
    metricsThreeRollbacks.rollback_rate = 3/20 ∧
    MetricsScorer.calculateScore metricsThreeRollbacks
      getDefaultConfig.weights.balanced 10 10000 <
      getDefaultConfig.thresholds.retire.max_score ∧
    MetricsScorer.shouldRetire getDefaultConfig metricsThreeRollbacks
      getDefaultConfig.weights.balanced = false := by
  refine ⟨rfl, rfl,
    by norm_num [MetricsScorer.calculateScore, getDefaultConfig, metricsThreeRollbacks], ?_⟩
  have hx : ¬ (metricsThreeRollbacks.rollback_rate ≥
      getDefaultConfig.thresholds.retire.max_rollback_rate) := by
    norm_num [metricsThreeRollbacks, getDefaultConfig]
  simp [MetricsScorer.shouldRetire, hx]

/-- C3 amended: under the default configuration, a snapshot with 20
executions, rollback rate 0.3 (6 rollbacks out of 20) and composite score
below `retire.max_score` is retired; and a snapshot with only 5 executions
is never retired. -/
theorem shouldRetire_scenario_amended :
    (∀ (m : SkillMetrics ℚ) (w : ScoreWeights), m.execution_count = 20 →
      m.rollback_rate = 3/10 →
      MetricsScorer.calculateScore m w 10 10000 <
        getDefaultConfig.thresholds.retire.max_score →
      MetricsScorer.shouldRetire getDefaultConfig m w = true) ∧
    (∀ (m : SkillMetrics ℚ) (w : ScoreWeights), m.execution_count = 5 →
      MetricsScorer.shouldRetire getDefaultConfig m w = false) := by
  constructor
  · intro m w h20 hrb hscore
    have hle := le_of_lt hscore
    simp only [MetricsScorer.shouldRetire, Bool.and_eq_true, decide_eq_true_eq]
    refine ⟨⟨hle, ?_⟩, ?_⟩
    · rw [h20]; norm_num [getDefaultConfig]
    · rw [hrb]; norm_num [getDefaultConfig]
  · intro m w h5
    simp only [MetricsScorer.shouldRetire, Bool.and_eq_false_iff]
    left
    right
    rw [h5]
    norm_num [getDefaultConfig]

/-- The amended scenario's snapshot: 20 executions, 6 rollbacks
(rollback rate 0.3), low composite score. -/
def metricsSixRollbacks : SkillMetrics ℚ :=
  { success_rate := 0, avg_cost := 10, avg_latency := 10000, rollback_rate := 3/10
    stability_score := 0, execution_count := 20, last_execution_at := "t" }

/-- The amended scenario's second snapshot: only 5 executions. -/
def metricsFiveRuns : SkillMetrics ℚ :=
  { success_rate := 0, avg_cost := 10, avg_latency := 10000, rollback_rate := 3/10
    stability_score := 0, execution_count := 5, last_execution_at := "t" }

/-- Witness for the amended C3 at concrete inputs. -/
theorem shouldRetire_scenario_amended_witness :
    MetricsScorer.shouldRetire getDefaultConfig metricsSixRollbacks
      getDefaultConfig.weights.balanced = true ∧
    MetricsScorer.shouldRetire getDefaultConfig metricsFiveRuns
      getDefaultConfig.weights.balanced = false :=
  ⟨shouldRetire_scenario_amended.1 metricsSixRollbacks
      getDefaultConfig.weights.balanced rfl rfl
      (by norm_num [MetricsScorer.calculateScore, getDefaultConfig, metricsSixRollbacks]),
    shouldRetire_scenario_amended.2 metricsFiveRuns
      getDefaultConfig.weights.balanced rfl⟩

/-- C8: with zero execution records, `calculateMetrics` returns all derived
metrics 0, execution count 0, and `last_execution_at` set to the current
time. -/
theorem calculateMetrics_zero_records (c : CollectorState) (name now : String)
    (h : MetricsCollector.getRecords c name = []) :
    MetricsCollector.calculateMetrics c name now =
      { success_rate := 0, avg_cost := 0, avg_latency := 0, rollback_rate := 0
        stability_score := 0, execution_count := 0, last_execution_at := now } := by
  simp [MetricsCollector.calculateMetrics, h]

/-- Witness for C8: the empty collector has no records for any name. -/
theorem calculateMetrics_zero_records_witness :
    MetricsCollector.getRecords ([] : CollectorState) "skill-x" = [] ∧
    MetricsCollector.calculateMetrics ([] : CollectorState) "skill-x" "2026-01-01" =
      { success_rate := 0, avg_cost := 0, avg_latency := 0, rollback_rate := 0
        stability_score := 0, execution_count := 0, last_execution_at := "2026-01-01" } :=
  ⟨rfl, calculateMetrics_zero_records ([] : CollectorState) "skill-x" "2026-01-01" rfl⟩

/-- For a history of length `n` with `2 ≤ n ≤ 10` the window size equals `n`,
so the windowed-rate sequence is the single overall success rate. -/
theorem windowRates_single_window (records : List ExecutionRecord)
    (h2 : 2 ≤ records.length) (h10 : records.length ≤ 10) :
    MetricsCollector.windowRates records =
      [((records.filter (fun r => r.success)).length : ℚ) / (records.length : ℚ)] := by
  have hw : min 10 records.length = records.length := min_eq_right h10
  have hc : records.length - (records.length - 1) = 1 := by omega
  have hs : records.length - 1 + 1 - records.length = 0 := by omega
  simp only [MetricsCollector.windowRates, hw, hc, List.range'_one, List.map_cons,
    List.map_nil, hs, List.drop_zero, List.take_length]

/-- The stability score of a history of length `2 ≤ n ≤ 10` is 1: there is a
single window, its rate sequence has zero variance, and `1 - sqrt 0` clamps
to 1. -/
theorem calculateStabilityScore_single_window (records : List ExecutionRecord)
    (h2 : 2 ≤ records.length) (h10 : records.length ≤ 10) :
    MetricsCollector.calculateStabilityScore records = 1 := by
  have h0 : ¬ (records.length = 0) := by omega
  have h1 : ¬ (records.length = 1) := by omega
  rw [MetricsCollector.calculateStabilityScore, if_neg h0, if_neg h1,
    windowRates_single_window records h2 h10]
  norm_num

/-- C10 (implicit): for every execution history of length `n` with
`2 ≤ n ≤ 10`, `calculateMetrics` returns `stability_score = 1` regardless of
which records succeeded or failed: the window size `min(10, n)` equals `n`,
giving a single windowed rate with zero standard deviation. -/
theorem calculateMetrics_stability_one (c : CollectorState) (name now : String)
    (h2 : 2 ≤ (MetricsCollector.getRecords c name).length)
    (h10 : (MetricsCollector.getRecords c name).length ≤ 10) :
    (MetricsCollector.calculateMetrics c name now).stability_score = 1 := by
  have h0 : ¬ ((MetricsCollector.getRecords c name).length = 0) := by omega
  simp only [MetricsCollector.calculateMetrics, if_neg h0]
  exact calculateStabilityScore_single_window _ h2 h10

/-- A concrete collector holding a mixed three-record history. -/
def collectorThreeRecords : CollectorState :=
  [("skill-y",
    [{ success := true, cost := 1, latency := 5, rolled_back := false, timestamp := "t1" },
     { success := false, cost := 2, latency := 6, rolled_back := true, timestamp := "t2" },
     { success := true, cost := 3, latency := 7, rolled_back := false, timestamp := "t3" }])]

/-- Witness for C10 at a concrete input: a mixed history of length 3 has
stability score 1. -/
theorem calculateMetrics_stability_one_witness :
    (MetricsCollector.calculateMetrics collectorThreeRecords "skill-y" "now").stability_score = 1 :=
  calculateMetrics_stability_one collectorThreeRecords "skill-y" "now"
    (by decide) (by decide)

/-- The source loop's windowed rates coincide with the spec's sliding-window
description: reindexing `i = (w-1) + start` turns the loop over end positions
into the slide over start positions. -/
theorem windowRates_eq_specWindowRates (records : List ExecutionRecord)
    (h1 : 1 ≤ records.length) :
    MetricsCollector.windowRates records = specWindowRates records := by
  have h1w : 1 ≤ min 10 records.length := le_min (by norm_num) h1
  have hwle : min 10 records.length ≤ records.length := min_le_right 10 records.length
  have hcount : records.length - (min 10 records.length - 1) =
      records.length - min 10 records.length + 1 := by omega
  simp only [MetricsCollector.windowRates, specWindowRates, hcount,
    List.range'_eq_map_range, List.map_map]
  apply List.map_congr_left
  intro k hk
  have hidx : min 10 records.length - 1 + k + 1 - min 10 records.length = k := by omega
  simp [Function.comp, hidx]

/-- The source stability score equals the spec's description of it
(`clamp(1 − σ, 0, 1)` over the sliding-window rates, with the 0- and
1-record special cases). -/
theorem calculateStabilityScore_eq_spec (records : List ExecutionRecord) :
    MetricsCollector.calculateStabilityScore records = specStabilityScore records := by
  by_cases h0 : records.length = 0
  · simp [MetricsCollector.calculateStabilityScore, specStabilityScore, h0]
  · by_cases h1 : records.length = 1
    · simp [MetricsCollector.calculateStabilityScore, specStabilityScore, h0, h1]
    · rw [MetricsCollector.calculateStabilityScore, specStabilityScore,
        if_neg h0, if_neg h1, if_neg h0, if_neg h1,
        ← windowRates_eq_specWindowRates records (by omega)]
      rfl

/-- C1: the stability score reported by `calculateMetrics` is exactly the
spec's §4.2 formula: 0 for an empty history, 1 for a single record, and
otherwise `clamp(1 − σ, 0, 1)` where σ is the population standard deviation
of the length-`min(10,n)` sliding-window success fractions. -/
theorem calculateMetrics_stability_eq_spec (c : CollectorState) (name now : String) :
    (MetricsCollector.calculateMetrics c name now).stability_score =
      specStabilityScore (MetricsCollector.getRecords c name) := by
  by_cases h0 : (MetricsCollector.getRecords c name).length = 0
  · simp [MetricsCollector.calculateMetrics, h0, specStabilityScore]
  · simp only [MetricsCollector.calculateMetrics, if_neg h0]
    exact calculateStabilityScore_eq_spec _

/-- C7: registering a skill whose name is already in the catalog raises (for
any validation outcome) and, the model being state-passing, the registry the
caller holds is untouched — no partial entry can appear in any index.  The
second conjunct pins the scenario: a registry obtained by one successful
registration into the empty registry has total count 1 (which the failing
second attempt leaves as is). -/
theorem register_duplicate (validMeta : SkillMetadata → Bool) (reg : SkillRegistry)
    (s : Skill) (st : Status) (p : String)
    (h : SkillRegistry.has reg s.metadata.name = true) :
    (∃ msg, SkillRegistry.register validMeta reg s st p = Except.error msg) ∧
    (∀ (s₀ : Skill) (st₀ : Status) (p₀ : String),
      SkillRegistry.register validMeta SkillRegistry.empty s₀ st₀ p₀ = Except.ok reg →
      (SkillRegistry.getStats reg).total = 1) := by
  constructor
  · cases hv : validMeta s.metadata
    · exact ⟨"Invalid skill metadata", by simp [SkillRegistry.register, hv]⟩
    · refine ⟨"Skill " ++ s.metadata.name ++ " is already registered", ?_⟩
      rw [SkillRegistry.has] at h
      simp [SkillRegistry.register, hv, h]
  · intro s₀ st₀ p₀ hreg
    cases hv : validMeta s₀.metadata
    · simp [SkillRegistry.register, hv] at hreg
    · simp only [SkillRegistry.register, SkillRegistry.empty, hv, Bool.not_true,
        Bool.false_eq_true, if_false, List.lookup_nil, Option.isSome_none,
        Except.ok.injEq, if_neg, Bool.false_eq_true, not_false_eq_true] at hreg
      subst hreg
      simp [SkillRegistry.getStats, mapSet]

/-- A validation predicate accepting everything (stands for a
`validateMetaData` run that reports `valid`). -/
def validAll : SkillMetadata → Bool := fun _ => true

/-- Metadata of the first registered copy of `dup-skill`. -/
def metaDup : SkillMetadata :=
  { name := "dup-skill", version := "1.0.0", intent := "demo", author := "agent"
    created_at := "2026-01-01T00:00:00Z" }

/-- Metadata of the conflicting second copy (same name, newer version). -/
def metaDup2 : SkillMetadata :=
  { name := "dup-skill", version := "2.0.0", intent := "demo", author := "agent"
    created_at := "2026-01-02T00:00:00Z" }

/-- The registry after registering the first copy into the empty registry. -/
def regOne : SkillRegistry :=
  { skills := [("dup-skill",
      { skill := { metadata := metaDup }, metadata := metaDup, path := ""
        status := Status.experimental })]
    intentIndex := [("demo", ["dup-skill"])]
    statusIndex := [(Status.experimental, ["dup-skill"])] }

/-- Witness for C7: the second registration of `dup-skill` errors and the
registry keeps total 1. -/
theorem register_duplicate_witness :
    (∃ msg, SkillRegistry.register validAll regOne { metadata := metaDup2 }
      Status.experimental "" = Except.error msg) ∧
    (SkillRegistry.getStats regOne).total = 1 :=
  ⟨(register_duplicate validAll regOne { metadata := metaDup2 }
      Status.experimental "" rfl).1,
    (register_duplicate validAll regOne { metadata := metaDup2 }
      Status.experimental "" rfl).2 { metadata := metaDup } Status.experimental "" rfl⟩

/-- Metadata of a skill that carries no `status` field of its own. -/
def metaProd : SkillMetadata :=
  { name := "prod-skill", version := "1.0.0", intent := "serve", author := "agent"
    created_at := "2026-01-01T00:00:00Z" }

/-- The registry after registering `prod-skill` with status `production`
into the empty registry. -/
def regProd : SkillRegistry :=
  { skills := [("prod-skill",
      { skill := { metadata := metaProd }, metadata := metaProd, path := ""
        status := Status.production })]
    intentIndex := [("serve", ["prod-skill"])]
    statusIndex := [(Status.production, ["prod-skill"])] }

/-- C5, evaluated at the failing input: a skill registered with status
`production` whose metadata has no `status` field.  `unregister` returns
true, removes the catalog entry, scrubs the intent index — but deletes from
the status-index bucket keyed by `metadata.status || 'experimental'`, so the
name is still present in the `production` bucket afterwards, contradicting
the claim that no index contains the name. -/
theorem unregister_status_index_stale :
    SkillRegistry.register validAll SkillRegistry.empty { metadata := metaProd }
      Status.production "" = Except.ok regProd ∧
    (SkillRegistry.unregister regProd "prod-skill").2 = true ∧
    List.lookup "prod-skill" (SkillRegistry.unregister regProd "prod-skill").1.skills = none ∧
    ((List.lookup "serve"
        (SkillRegistry.unregister regProd "prod-skill").1.intentIndex).getD []).contains
      "prod-skill" = false ∧
    ((List.lookup Status.production
        (SkillRegistry.unregister regProd "prod-skill").1.statusIndex).getD []).contains
      "prod-skill" = true :=
  ⟨rfl, rfl, rfl, rfl, rfl⟩

/-- The query semantics as §4.4 of the spec words it — a conjunction of the
provided filters — amended in one point the code forces: a skill that
declares no `tags` list passes the tag filter. -/
def specMatches (e : SkillEntry) (o : RegistryQueryOptions) : Bool :=
  (match o.intent with
   | none => true
   | some s => e.metadata.intent == s) &&
  (match o.status with
   | none => true
   | some s => e.status == s) &&
  (match o.author with
   | none => true
   | some s => e.metadata.author == s) &&
  (match o.tag with
   | none => true
   | some t =>
      match e.metadata.tags with
      | none => true
      | some tags => tags.contains t) &&
  (match o.name with
   | none => true
   | some s => SkillRegistry.strIncludes e.metadata.name s) &&
  (match o.version with
   | none => true
   | some s => e.metadata.version == s)

/-- The provided string filters are non-empty (JS-truthy), so that every
provided filter is actually applied by `matchesQuery`.  (`name` needs no
such guard: an empty name pattern is a substring of every name, and `status`
is an enum, always truthy.) -/
def optsTruthy (o : RegistryQueryOptions) : Bool :=
  !(o.intent == some "") && !(o.author == some "") &&
  !(o.tag == some "") && !(o.version == some "")

/-- An empty string pattern is a substring of every string. -/
theorem strIncludes_empty (s : String) : SkillRegistry.strIncludes s "" = true := by
  simp [SkillRegistry.strIncludes]
  exact ⟨0, by simp⟩

/-- The name guard collapses: an empty pattern passes because every name
contains it, a non-empty pattern passes exactly on containment. -/
theorem name_filter_eq (s v : String) :
    (decide (v = "") || SkillRegistry.strIncludes s v) =
      SkillRegistry.strIncludes s v := by
  rcases eq_or_ne v "" with rfl | h
  · simp [strIncludes_empty]
  · simp [h]

/-- Pointwise: on truthy options the source's early-return chain computes
exactly the spec-side conjunction. -/
theorem matchesQuery_eq_specMatches (e : SkillEntry) (o : RegistryQueryOptions)
    (h : optsTruthy o = true) :
    SkillRegistry.matchesQuery e o = specMatches e o := by
  obtain ⟨i, st, a, tg, nm, v⟩ := o
  simp only [optsTruthy, Bool.and_eq_true, Bool.not_eq_true'] at h
  obtain ⟨⟨⟨hi, ha⟩, htg⟩, hv⟩ := h
  cases hmt : e.metadata.tags <;> cases i <;> cases st <;> cases a <;> cases tg <;>
    cases nm <;> cases v <;>
    simp_all [SkillRegistry.matchesQuery, specMatches, SkillRegistry.failIntent,
      SkillRegistry.failStatus, SkillRegistry.failAuthor, SkillRegistry.failTag,
      SkillRegistry.failName, SkillRegistry.failVersion, strIncludes_empty,
      name_filter_eq, beq_eq_decide, Bool.and_assoc, decide_eq_decide] <;>
    try congr!

/-- C6 amended: for every registry state and every query whose provided
string filters are non-empty, `list` returns exactly the registered skills
satisfying the conjunction of the provided filters — with the tag filter
also passing any skill that declares no tags list — and with no options
`list` returns every registered skill. -/
theorem list_filters (reg : SkillRegistry) (opts : RegistryQueryOptions)
    (h : optsTruthy opts = true) :
    SkillRegistry.list reg (some opts) =
      ((reg.skills.map (fun p => p.2)).filter
        (fun e => specMatches e opts)).map (fun e => e.skill) ∧
    SkillRegistry.list reg none = reg.skills.map (fun p => p.2.skill) := by
  constructor
  · simp only [SkillRegistry.list]
    exact congrArg (List.map fun e => e.skill)
      (List.filter_congr (fun e _ => matchesQuery_eq_specMatches e opts h))
  · rfl

/-- Metadata of a skill declaring no tags list. -/
def metaNoTags : SkillMetadata :=
  { name := "plain-skill", version := "1.0.0", intent := "demo", author := "agent"
    created_at := "2026-01-01T00:00:00Z" }

/-- A registry holding only the tagless skill. -/
def regNoTags : SkillRegistry :=
  { skills := [("plain-skill",
      { skill := { metadata := metaNoTags }, metadata := metaNoTags, path := ""
        status := Status.experimental })]
    intentIndex := [("demo", ["plain-skill"])]
    statusIndex := [(Status.experimental, ["plain-skill"])] }

/-- Counterexample to C6 as stated: querying by tag `fast` returns the
tagless skill even though its tags (there are none) do not contain `fast`,
so `list` does not return exactly the skills whose tags contain the queried
tag. -/
theorem list_tag_counterexample :
    SkillRegistry.list regNoTags (some { tag := some "fast" }) =
      [{ metadata := metaNoTags }] ∧
    ((({ metadata := metaNoTags } : Skill).metadata.tags).getD []).contains "fast"
      = false :=
  ⟨rfl, rfl⟩

/-- Metadata of a tagged production skill used in the C6 witness registry. -/
def metaTagged : SkillMetadata :=
  { name := "fast-skill", version := "1.1.0", intent := "serve", author := "bot"
    created_at := "2026-01-03T00:00:00Z", tags := some ["fast", "cheap"] }

/-- A two-skill registry exercising both filter outcomes. -/
def regTwo : SkillRegistry :=
  { skills :=
      [("plain-skill",
        { skill := { metadata := metaNoTags }, metadata := metaNoTags, path := ""
          status := Status.experimental }),
       ("fast-skill",
        { skill := { metadata := metaTagged }, metadata := metaTagged, path := ""
          status := Status.production })]
    intentIndex := [("demo", ["plain-skill"]), ("serve", ["fast-skill"])]
    statusIndex := [(Status.experimental, ["plain-skill"]),
      (Status.production, ["fast-skill"])] }

/-- Witness for the amended C6 at a concrete registry and query. -/
theorem list_filters_witness :
    SkillRegistry.list regTwo (some { intent := some "serve" }) =
      ((regTwo.skills.map (fun p => p.2)).filter
        (fun e => specMatches e { intent := some "serve" })).map (fun e => e.skill) ∧
    SkillRegistry.list regTwo none = regTwo.skills.map (fun p => p.2.skill) :=
  list_filters regTwo { intent := some "serve" } rfl

/-- Negating the overall score swaps the `A`/`B` recommendations and fixes
`TIE`. -/
theorem recommendation_swap (x y : ℚ) (hxy : y = -x) :
    ((if x > 0.1 then Recommendation.A
      else if x < -0.1 then Recommendation.B else Recommendation.TIE) =
        Recommendation.A ↔
     (if y > 0.1 then Recommendation.A
      else if y < -0.1 then Recommendation.B else Recommendation.TIE) =
        Recommendation.B) ∧
    ((if x > 0.1 then Recommendation.A
      else if x < -0.1 then Recommendation.B else Recommendation.TIE) =
        Recommendation.TIE ↔
     (if y > 0.1 then Recommendation.A
      else if y < -0.1 then Recommendation.B else Recommendation.TIE) =
        Recommendation.TIE) := by
  subst hxy
  by_cases h1 : x > 0.1
  · have h2 : ¬ (-x > (0.1 : ℚ)) := by linarith
    have h3 : -x < (-0.1 : ℚ) := by linarith
    simp [h1, h2, h3]
  · by_cases h2 : x < -0.1
    · have h3 : -x > (0.1 : ℚ) := by linarith
      simp [h1, h2, h3]
    · have h3 : ¬ (-x > (0.1 : ℚ)) := by linarith
      have h4 : ¬ (-x < (-0.1 : ℚ)) := by linarith
      simp [h1, h2, h3, h4]

/-- Swapping the two argument blocks of `compareCore` negates all three
deltas and the overall score, and swaps the recommendation. -/
theorem compareCore_swap (cA cB lA lB sA sB : ℚ) :
    (SkillRegistry.compareCore cB cA lB lA sB sA).aVsB.cost =
      -(SkillRegistry.compareCore cA cB lA lB sA sB).aVsB.cost ∧
    (SkillRegistry.compareCore cB cA lB lA sB sA).aVsB.latency =
      -(SkillRegistry.compareCore cA cB lA lB sA sB).aVsB.latency ∧
    (SkillRegistry.compareCore cB cA lB lA sB sA).aVsB.success_rate =
      -(SkillRegistry.compareCore cA cB lA lB sA sB).aVsB.success_rate ∧
    (SkillRegistry.compareCore cB cA lB lA sB sA).overallScore =
      -(SkillRegistry.compareCore cA cB lA lB sA sB).overallScore ∧
    ((SkillRegistry.compareCore cA cB lA lB sA sB).recommendation =
        Recommendation.A ↔
      (SkillRegistry.compareCore cB cA lB lA sB sA).recommendation =
        Recommendation.B) ∧
    ((SkillRegistry.compareCore cA cB lA lB sA sB).recommendation =
        Recommendation.TIE ↔
      (SkillRegistry.compareCore cB cA lB lA sB sA).recommendation =
        Recommendation.TIE) := by
  refine ⟨by simp only [SkillRegistry.compareCore]; ring,
    by simp only [SkillRegistry.compareCore]; ring,
    by simp only [SkillRegistry.compareCore]; ring,
    by simp only [SkillRegistry.compareCore]; ring, ?_, ?_⟩
  · simp only [SkillRegistry.compareCore]
    exact (recommendation_swap _ _ (by ring)).1
  · simp only [SkillRegistry.compareCore]
    exact (recommendation_swap _ _ (by ring)).2

/-- C9: for registered names, `compare(A, B, mA, mB)` and
`compare(B, A, mB, mA)` succeed, produce delta fields and overall scores
that are exact negations of each other, and recommendations that agree:
the first run recommends `A` iff the swapped run recommends `B`, and `TIE`
iff the swapped run returns `TIE`. -/
theorem compare_antisymm (reg : SkillRegistry) (nameA nameB : String)
    (mA mB : Option (SkillMetrics ℚ)) (eA eB : SkillEntry)
    (hA : List.lookup nameA reg.skills = some eA)
    (hB : List.lookup nameB reg.skills = some eB) :
    SkillRegistry.compare reg nameA nameB mA mB =
      Except.ok (SkillRegistry.compareEntries eA eB mA mB) ∧
    SkillRegistry.compare reg nameB nameA mB mA =
      Except.ok (SkillRegistry.compareEntries eB eA mB mA) ∧
    (SkillRegistry.compareEntries eB eA mB mA).aVsB.cost =
      -(SkillRegistry.compareEntries eA eB mA mB).aVsB.cost ∧
    (SkillRegistry.compareEntries eB eA mB mA).aVsB.latency =
      -(SkillRegistry.compareEntries eA eB mA mB).aVsB.latency ∧
    (SkillRegistry.compareEntries eB eA mB mA).aVsB.success_rate =
      -(SkillRegistry.compareEntries eA eB mA mB).aVsB.success_rate ∧
    (SkillRegistry.compareEntries eB eA mB mA).overallScore =
      -(SkillRegistry.compareEntries eA eB mA mB).overallScore ∧
    ((SkillRegistry.compareEntries eA eB mA mB).recommendation =
        Recommendation.A ↔
      (SkillRegistry.compareEntries eB eA mB mA).recommendation =
        Recommendation.B) ∧
    ((SkillRegistry.compareEntries eA eB mA mB).recommendation =
        Recommendation.TIE ↔
      (SkillRegistry.compareEntries eB eA mB mA).recommendation =
        Recommendation.TIE) := by
  have hcore := compareCore_swap
    (SkillRegistry.resolvedCost eA mA) (SkillRegistry.resolvedCost eB mB)
    (SkillRegistry.resolvedLatency mA) (SkillRegistry.resolvedLatency mB)
    (SkillRegistry.resolvedSuccessRate eA mA) (SkillRegistry.resolvedSuccessRate eB mB)
  refine ⟨?_, ?_, hcore.1, hcore.2.1, hcore.2.2.1, hcore.2.2.2.1,
    hcore.2.2.2.2.1, hcore.2.2.2.2.2⟩
  · simp [SkillRegistry.compare, hA, hB]
  · simp [SkillRegistry.compare, hA, hB]

/-- Metadata of the comparison skill `alpha` (declared cost 1, threshold
0.8). -/
def metaAlpha : SkillMetadata :=
  { name := "alpha", version := "1.0.0", intent := "serve", author := "agent"
    created_at := "2026-01-01T00:00:00Z", cost_estimate := some 1
    success_threshold := some 0.8 }

/-- Metadata of the comparison skill `beta` (declared cost 0.5, threshold
0.9). -/
def metaBeta : SkillMetadata :=
  { name := "beta", version := "1.0.0", intent := "serve", author := "agent"
    created_at := "2026-01-02T00:00:00Z", cost_estimate := some 0.5
    success_threshold := some 0.9 }

/-- Registry entry for `alpha`. -/
def entryAlpha : SkillEntry :=
  { skill := { metadata := metaAlpha }, metadata := metaAlpha, path := ""
    status := Status.production }

/-- Registry entry for `beta`. -/
def entryBeta : SkillEntry :=
  { skill := { metadata := metaBeta }, metadata := metaBeta, path := ""
    status := Status.experimental }

/-- A registry holding the two comparison skills. -/
def regCmp : SkillRegistry :=
  { skills := [("alpha", entryAlpha), ("beta", entryBeta)]
    intentIndex := [("serve", ["alpha", "beta"])]
    statusIndex := [(Status.production, ["alpha"]),
      (Status.experimental, ["beta"])] }

/-- Witness for C9: both lookups succeed on the concrete registry and the
comparison is the one computed from the two entries. -/
theorem compare_antisymm_witness :
    SkillRegistry.compare regCmp "alpha" "beta" none none =
      Except.ok (SkillRegistry.compareEntries entryAlpha entryBeta none none) ∧
    (SkillRegistry.compareEntries entryBeta entryAlpha none none).overallScore =
      -(SkillRegistry.compareEntries entryAlpha entryBeta none none).overallScore :=
  ⟨(compare_antisymm regCmp "alpha" "beta" none none entryAlpha entryBeta rfl rfl).1,
    (compare_antisymm regCmp "alpha" "beta" none none entryAlpha entryBeta rfl
      rfl).2.2.2.2.2.1⟩
